import Mathlib

set_option maxRecDepth 4000

/-!
# GitPulse server — verification of the fetch–paginate–normalize pipeline

Shallow embedding of `src/server.py`.  Upstream (GitHub) data is modelled by
explicit record types holding exactly the attributes the source reads; the
results of upstream calls (`get_repo`, `get_issue`, `get_languages`, …) are
passed to each fetcher as `Except String`-valued arguments, mirroring the
fact that each such call either yields a value or raises.  Python `datetime`
values are modelled as their `isoformat()` strings, `None`-able attributes
as `Option`, and Python string truthiness (`if x:` on a `str`-or-`None`) by
`pyTruthyStr`.
-/

/-- Python truthiness of an optional string (`None` and `""` are falsy). -/
def pyTruthyStr : Option String → Bool
  | some s => s ≠ ""
  | none => false

/-- Python `str.strip()` with no argument: remove leading and trailing
whitespace characters. -/
def pyStrip (s : String) : String :=
  String.mk (((s.data.dropWhile Char.isWhitespace).reverse.dropWhile
    Char.isWhitespace).reverse)

/-- Python `s[:n]`: the first `n` code points of `s`. -/
def pySlice (s : String) (n : Nat) : String :=
  String.mk (s.data.take n)

/-- Python `str.split("/")` on a character list: splitting on the single
character `/`, where an empty input yields one empty segment, matching
`"".split("/") == [""]` and `"/".split("/") == ["", ""]`. -/
def splitSlash : List Char → List (List Char)
  | [] => [[]]
  | c :: rest =>
    let r := splitSlash rest
    if c = '/' then [] :: r
    else
      match r with
      | h :: t => (c :: h) :: t
      | [] => [[c]]

/-- `parse_repository` (server.py:20-25): `repo_str.split("/")`, raising
`ValueError("Repository must be in format 'owner/repo'")` unless exactly two
parts result, and returning `(parts[0], parts[1])` otherwise. -/
def parse_repository (repo_str : String) : Except String (String × String) :=
  match (splitSlash repo_str.data).map String.mk with
  | [a, b] => .ok (a, b)
  | _ => .error "Repository must be in format owner/repo"

theorem splitSlash_ne_nil (l : List Char) : splitSlash l ≠ [] := by
  induction l with
  | nil => simp [splitSlash]
  | cons c rest ih =>
    simp only [splitSlash]
    split
    · simp
    · cases h : splitSlash rest with
      | nil => exact absurd h ih
      | cons a t => simp [h]

theorem splitSlash_length (l : List Char) :
    (splitSlash l).length = l.count '/' + 1 := by
  induction l with
  | nil => simp [splitSlash]
  | cons c rest ih =>
    simp only [splitSlash]
    split
    · rename_i hc
      subst hc
      simp [List.count_cons, ih]
    · rename_i hc
      cases h : splitSlash rest with
      | nil => exact absurd h (splitSlash_ne_nil rest)
      | cons a t =>
        have := ih
        rw [h] at this
        simp only [List.length_cons] at this ⊢
        rw [List.count_cons]
        simp [hc, this]

theorem splitSlash_single (l x : List Char) :
    splitSlash l = [x] ↔ l = x ∧ '/' ∉ x := by
  induction l generalizing x with
  | nil =>
    constructor
    · intro h
      simp only [splitSlash, List.cons.injEq, and_true] at h
      subst h
      simp
    · rintro ⟨rfl, -⟩
      rfl
  | cons c rest ih =>
    cases h : splitSlash rest with
    | nil => exact absurd h (splitSlash_ne_nil rest)
    | cons a t =>
      by_cases hc : c = '/'
      · subst hc
        simp only [splitSlash, h, eq_self_iff_true, if_true]
        constructor
        · intro heq
          exact absurd heq (by simp)
        · rintro ⟨rfl, hx⟩
          simp at hx
      · simp only [splitSlash, h, if_neg hc]
        constructor
        · intro heq
          simp only [List.cons.injEq] at heq
          obtain ⟨hx, ht⟩ := heq
          subst ht
          obtain ⟨hr, ha⟩ := (ih a).mp h
          subst hr
          subst hx
          refine ⟨rfl, ?_⟩
          simp only [List.mem_cons, not_or]
          exact ⟨fun hh => hc hh.symm, ha⟩
        · rintro ⟨rfl, hx⟩
          simp only [List.mem_cons, not_or] at hx
          have h2 : splitSlash rest = [rest] := (ih rest).mpr ⟨rfl, hx.2⟩
          rw [h] at h2
          simp only [List.cons.injEq, and_true] at h2
          obtain ⟨h2a, h2t⟩ := h2
          subst h2a
          subst h2t
          rfl

theorem splitSlash_pair (l x y : List Char) :
    splitSlash l = [x, y] ↔ l = x ++ '/' :: y ∧ '/' ∉ x ∧ '/' ∉ y := by
  induction l generalizing x with
  | nil =>
    constructor
    · intro h
      simp [splitSlash] at h
    · rintro ⟨h, -, -⟩
      exact absurd h (by simp)
  | cons c rest ih =>
    cases h : splitSlash rest with
    | nil => exact absurd h (splitSlash_ne_nil rest)
    | cons a t =>
      by_cases hc : c = '/'
      · subst hc
        simp only [splitSlash, h, eq_self_iff_true, if_true]
        constructor
        · intro heq
          simp only [List.cons.injEq] at heq
          obtain ⟨hx, ha, ht⟩ := heq
          subst ht
          subst ha
          obtain ⟨hr, hy2⟩ := (splitSlash_single rest a).mp h
          subst hr
          exact ⟨by simp [← hx], by simp [← hx], hy2⟩
        · rintro ⟨heq, hx, hy⟩
          cases x with
          | nil =>
            simp only [List.nil_append, List.cons.injEq, true_and] at heq
            subst heq
            have h2 : splitSlash rest = [rest] :=
              (splitSlash_single rest rest).mpr ⟨rfl, hy⟩
            rw [h] at h2
            simp only [List.cons.injEq, and_true] at h2
            obtain ⟨h2a, h2t⟩ := h2
            subst h2a
            subst h2t
            rfl
          | cons b bs =>
            simp only [List.cons_append, List.cons.injEq] at heq
            obtain ⟨hb, -⟩ := heq
            subst hb
            simp at hx
      · simp only [splitSlash, h, if_neg hc]
        constructor
        · intro heq
          simp only [List.cons.injEq] at heq
          obtain ⟨hx, ht⟩ := heq
          subst ht
          have h2 : splitSlash rest = [a, y] := h
          obtain ⟨hr, ha, hy⟩ := (ih a).mp h2
          subst hr
          subst hx
          refine ⟨rfl, ?_, hy⟩
          simp only [List.mem_cons, not_or]
          exact ⟨fun hh => hc hh.symm, ha⟩
        · rintro ⟨heq, hx, hy⟩
          cases x with
          | nil =>
            simp only [List.nil_append, List.cons.injEq] at heq
            exact absurd heq.1 hc
          | cons b bs =>
            simp only [List.cons_append, List.cons.injEq] at heq
            obtain ⟨hb, hrest⟩ := heq
            subst hb
            simp only [List.mem_cons, not_or] at hx
            have h2 : splitSlash rest = [bs, y] := (ih bs).mpr ⟨hrest, hx.2, hy⟩
            rw [h] at h2
            simp only [List.cons.injEq, and_true] at h2
            obtain ⟨h2a, h2t⟩ := h2
            subst h2a
            subst h2t
            rfl

/-! ## Upstream data model

One record type per upstream (PyGithub) object kind, holding exactly the
attributes `server.py` reads.  `Option` marks attributes that can be `None`
(or, for `reactions` / `author_association` / `name`, absent in the
`hasattr` sense).  `datetime` attributes are modelled by their
`isoformat()` string. -/

/-- An upstream user/actor/author reference (`login`, `html_url`). -/
structure RawUser where
  login : String
  html_url : String := ""
  deriving DecidableEq

/-- An upstream label object (`name`, `color`, `description`). -/
structure RawLabel where
  name : String
  color : String := ""
  description : Option String := none
  deriving DecidableEq

/-- An upstream milestone object. -/
structure RawMilestone where
  title : String
  description : Option String := none
  state : String := ""
  due_on : Option String := none
  deriving DecidableEq

/-- The upstream reaction tallies, as read by subscripting
`issue.reactions[...]` / `comment.reactions[...]`.  `plus_one` models the
`"+1"` key and `minus_one` the `"-1"` key. -/
structure RawReactions where
  total_count : Int := 0
  plus_one : Int := 0
  minus_one : Int := 0
  laugh : Int := 0
  hooray : Int := 0
  confused : Int := 0
  heart : Int := 0
  rocket : Int := 0
  eyes : Int := 0
  deriving DecidableEq

/-- An upstream issue record.  `pull_request` is the truthiness of
`issue.pull_request` (a PR-backed issue); `reactions = none` models
`hasattr(issue, 'reactions')` being false. -/
structure RawIssue where
  number : Int
  title : String := ""
  body : Option String := none
  user : Option RawUser := none
  state : String := "open"
  created_at : Option String := none
  updated_at : Option String := none
  closed_at : Option String := none
  labels : List RawLabel := []
  assignees : List RawUser := []
  milestone : Option RawMilestone := none
  comments : Int := 0
  reactions : Option RawReactions := none
  locked : Bool := false
  active_lock_reason : Option String := none
  html_url : String := ""
  pull_request : Bool := false
  deriving DecidableEq

/-- An upstream issue comment.  `author_association = none` models
`hasattr(comment, 'author_association')` being false, and likewise for
`reactions`. -/
structure RawComment where
  id : Int
  body : Option String := none
  user : Option RawUser := none
  author_association : Option String := none
  created_at : Option String := none
  updated_at : Option String := none
  html_url : String := ""
  reactions : Option RawReactions := none
  deriving DecidableEq

/-- The nested `commit.commit.author` git author (`name`, `date`). -/
structure RawCommitAuthor where
  name : String
  date : Option String := none
  deriving DecidableEq

/-- An upstream commit: `sha`, nested `commit.message` / `commit.author`,
`html_url`. -/
structure RawCommit where
  sha : String
  message : String := ""
  author : Option RawCommitAuthor := none
  html_url : String := ""
  deriving DecidableEq

/-- An upstream pull request record. -/
structure RawPullRequest where
  number : Int
  title : String := ""
  user : Option RawUser := none
  state : String := "open"
  created_at : Option String := none
  html_url : String := ""
  deriving DecidableEq

/-- An upstream release asset (only `download_count` is read). -/
structure RawAsset where
  download_count : Int := 0
  deriving DecidableEq

/-- An upstream release.  `title` is `release.title` (`None`-able), `assets`
the sequence returned by `release.get_assets()`. -/
structure RawRelease where
  tag_name : String
  title : Option String := none
  author : Option RawUser := none
  published_at : Option String := none
  created_at : Option String := none
  prerelease : Bool := false
  draft : Bool := false
  body : Option String := none
  assets : List RawAsset := []
  html_url : String := ""
  deriving DecidableEq

/-- An upstream workflow run.  `name = none` models a missing/`None`
`run.name`; `workflow_id` is the numeric id (`0` is falsy in Python). -/
structure RawWorkflowRun where
  id : Int
  name : Option String := none
  workflow_id : Int := 0
  status : String := ""
  conclusion : Option String := none
  event : String := ""
  head_branch : Option String := none
  head_sha : Option String := none
  created_at : Option String := none
  updated_at : Option String := none
  run_number : Int := 0
  actor : Option RawUser := none
  html_url : String := ""
  deriving DecidableEq

/-- An upstream repository record (`github.get_repo` result), with the
attributes `getRepoStats` and the other fetchers read.  `is_private` models
the `private` attribute; `license` is the license's `name` when a license
object is present. -/
structure RawRepo where
  name : String := ""
  full_name : String := ""
  description : Option String := none
  stargazers_count : Nat := 0
  forks_count : Nat := 0
  watchers_count : Nat := 0
  open_issues_count : Nat := 0
  size : Nat := 0
  language : Option String := none
  created_at : Option String := none
  updated_at : Option String := none
  pushed_at : Option String := none
  default_branch : String := "main"
  archived : Bool := false
  disabled : Bool := false
  is_private : Bool := false
  fork : Bool := false
  has_issues : Bool := true
  has_projects : Bool := true
  has_wiki : Bool := true
  has_pages : Bool := false
  license : Option String := none
  html_url : String := ""
  deriving DecidableEq

/-! ## Normalized output schema

One record type per tool output shape, field-for-field the dicts built in
`server.py`.  A reactions value of `none` models the *empty* dict `\x7b\x7d`
produced when the upstream record has no `reactions` attribute; `some r`
models the full nine-key dict. -/

/-- Output label object of `fetchIssueDetails`. -/
structure LabelOut where
  name : String
  color : String
  description : Option String
  deriving DecidableEq

/-- Output assignee object of `fetchIssueDetails`. -/
structure AssigneeOut where
  login : String
  html_url : String
  deriving DecidableEq

/-- Output milestone object of `fetchIssueDetails`. -/
structure MilestoneOut where
  title : String
  description : Option String
  state : String
  due_on : Option String
  deriving DecidableEq

/-- The owning-repository sub-object of `fetchIssueDetails`. -/
structure RepoRefOut where
  name : String
  full_name : String
  html_url : String
  deriving DecidableEq

/-- Output of `fetchNewCommits` per commit. -/
structure CommitOut where
  sha : String
  message : String
  author : String
  date : String
  url : String
  deriving DecidableEq

/-- Output of `fetchNewPRs` per pull request. -/
structure PullRequestOut where
  number : Int
  title : String
  author : String
  state : String
  created_at : String
  html_url : String
  deriving DecidableEq

/-- Output of `fetchNewIssues` per issue. -/
structure IssueOut where
  number : Int
  title : String
  author : String
  state : String
  created_at : String
  labels : List String
  assignees : List String
  html_url : String
  deriving DecidableEq

/-- Output of `fetchIssueDetails`. -/
structure IssueDetailOut where
  number : Int
  title : String
  body : String
  author : String
  state : String
  created_at : String
  updated_at : String
  closed_at : Option String
  labels : List LabelOut
  assignees : List AssigneeOut
  milestone : Option MilestoneOut
  comments_count : Int
  reactions : Option RawReactions
  locked : Bool
  active_lock_reason : Option String
  html_url : String
  repository : RepoRefOut
  deriving DecidableEq

/-- Output of `fetchIssueComments` per comment. -/
structure CommentOut where
  id : Int
  body : String
  author : String
  author_association : String
  created_at : String
  updated_at : String
  html_url : String
  reactions : Option RawReactions
  deriving DecidableEq

/-- Output of `addIssueComment` (the created-comment dict). -/
structure CommentCreatedOut where
  id : Int
  body : Option String
  author : String
  author_association : String
  created_at : String
  updated_at : String
  html_url : String
  issue_number : Int
  repository : String
  success : Bool
  deriving DecidableEq

/-- Output of `fetchReleases` per release. -/
structure ReleaseOut where
  tag_name : String
  name : String
  author : String
  published_at : String
  created_at : String
  prerelease : Bool
  draft : Bool
  body : Option String
  download_count : Int
  assets_count : Int
  html_url : String
  deriving DecidableEq

/-- Output of `fetchWorkflowRuns` per run. -/
structure WorkflowRunOut where
  id : Int
  name : String
  workflow_name : String
  status : String
  conclusion : Option String
  event : String
  branch : Option String
  commit_sha : String
  created_at : String
  updated_at : String
  run_number : Int
  actor : String
  html_url : String
  deriving DecidableEq

/-- Output of `getRepoStats`. -/
structure RepoStatsOut where
  name : String
  full_name : String
  description : Option String
  stars : Nat
  forks : Nat
  watchers : Nat
  open_issues : Nat
  size_kb : Nat
  language : Option String
  languages : List (String × Nat)
  created_at : String
  updated_at : String
  pushed_at : String
  default_branch : String
  archived : Bool
  disabled : Bool
  is_private : Bool
  fork : Bool
  has_issues : Bool
  has_projects : Bool
  has_wiki : Bool
  has_pages : Bool
  license : Option String
  html_url : String
  contributors_count : Nat
  health_score : Nat
  deriving DecidableEq

/-! ## Record normalizers

One pure function per upstream record type, the body of the corresponding
result-dict construction in `server.py`. -/

/-- `x.isoformat() if x else ""` for a `None`-able datetime attribute
(datetime objects are always truthy). -/
def isoOrEmpty : Option String → String
  | some t => t
  | none => ""

/-- The nine-key reactions dict built by subscripting an upstream
reactions record (`total_count`, `+1`, `-1`, `laugh`, `hooray`,
`confused`, `heart`, `rocket`, `eyes`). -/
def normalizeReactions (r : RawReactions) : RawReactions :=
  { total_count := r.total_count
    plus_one := r.plus_one
    minus_one := r.minus_one
    laugh := r.laugh
    hooray := r.hooray
    confused := r.confused
    heart := r.heart
    rocket := r.rocket
    eyes := r.eyes }

/-- The per-commit dict of `fetchNewCommits` (server.py:81-87). -/
def normalizeCommit (commit : RawCommit) : CommitOut :=
  { sha := commit.sha
    message := commit.message
    author := match commit.author with
              | some a => a.name
              | none => "Unknown"
    date := match commit.author with
            | some a => isoOrEmpty a.date
            | none => ""
    url := commit.html_url }

/-- The per-PR dict of `fetchNewPRs` (server.py:132-139). -/
def normalizePullRequest (pr : RawPullRequest) : PullRequestOut :=
  { number := pr.number
    title := pr.title
    author := match pr.user with
              | some u => u.login
              | none => "Unknown"
    state := pr.state
    created_at := isoOrEmpty pr.created_at
    html_url := pr.html_url }

/-- The per-issue dict of `fetchNewIssues` (server.py:193-202).  The Python
guards `if issue.labels else []` / `if issue.assignees else []` coincide
with mapping over the (possibly empty) lists. -/
def normalizeIssue (issue : RawIssue) : IssueOut :=
  { number := issue.number
    title := issue.title
    author := match issue.user with
              | some u => u.login
              | none => "Unknown"
    state := issue.state
    created_at := isoOrEmpty issue.created_at
    labels := issue.labels.map (fun label => label.name)
    assignees := issue.assignees.map (fun assignee => assignee.login)
    html_url := issue.html_url }

/-- The detail dict of `fetchIssueDetails` (server.py:237-274), given the
repository record for the trailing `repository` sub-object. -/
def normalizeIssueDetail (repo : RawRepo) (issue : RawIssue) : IssueDetailOut :=
  { number := issue.number
    title := issue.title
    body := match issue.body with
            | some b => b
            | none => ""
    author := match issue.user with
              | some u => u.login
              | none => "Unknown"
    state := issue.state
    created_at := isoOrEmpty issue.created_at
    updated_at := isoOrEmpty issue.updated_at
    closed_at := issue.closed_at
    labels := issue.labels.map (fun label =>
      { name := label.name, color := label.color,
        description := label.description })
    assignees := issue.assignees.map (fun assignee =>
      { login := assignee.login, html_url := assignee.html_url })
    milestone := match issue.milestone with
                 | some m => some { title := m.title,
                                    description := m.description,
                                    state := m.state,
                                    due_on := m.due_on }
                 | none => none
    comments_count := issue.comments
    reactions := match issue.reactions with
                 | some r => some (normalizeReactions r)
                 | none => none
    locked := issue.locked
    active_lock_reason := issue.active_lock_reason
    html_url := issue.html_url
    repository := { name := repo.name, full_name := repo.full_name,
                    html_url := repo.html_url } }

/-- The per-comment dict of `fetchIssueComments` (server.py:321-340). -/
def normalizeComment (comment : RawComment) : CommentOut :=
  { id := comment.id
    body := match comment.body with
            | some b => b
            | none => ""
    author := match comment.user with
              | some u => u.login
              | none => "Unknown"
    author_association := match comment.author_association with
                          | some a => a
                          | none => "NONE"
    created_at := isoOrEmpty comment.created_at
    updated_at := isoOrEmpty comment.updated_at
    html_url := comment.html_url
    reactions := match comment.reactions with
                 | some r => some (normalizeReactions r)
                 | none => none }

/-- The per-release dict of `fetchReleases` (server.py:498-510).  The body
expression is `release.body[:500] + "..." if release.body and
len(release.body) > 500 else release.body`; a `None` or falsy-empty body
falls through unchanged. -/
def normalizeRelease (release : RawRelease) : ReleaseOut :=
  { tag_name := release.tag_name
    name := match release.title with
            | some t => if t = "" then release.tag_name else t
            | none => release.tag_name
    author := match release.author with
              | some u => u.login
              | none => "Unknown"
    published_at := isoOrEmpty release.published_at
    created_at := isoOrEmpty release.created_at
    prerelease := release.prerelease
    draft := release.draft
    body := match release.body with
            | some b => if b.length > 500 then some (pySlice b 500 ++ "...") else some b
            | none => none
    download_count := (release.assets.map (fun asset => asset.download_count)).sum
    assets_count := release.assets.length
    html_url := release.html_url }

/-- The per-run dict of `fetchWorkflowRuns` (server.py:642-665), including
the secondary workflow-name lookup: `workflow_name` starts as `"Unknown"`
and is replaced by `repo.get_workflow(run.workflow_id).name` when
`run.workflow_id` is truthy and the lookup does not raise
(`lookupWorkflow` returning `none` models the swallowed exception). -/
def normalizeWorkflowRun (lookupWorkflow : Int → Option String)
    (run : RawWorkflowRun) : WorkflowRunOut :=
  let workflow_name :=
    if run.workflow_id ≠ 0 then
      match lookupWorkflow run.workflow_id with
      | some nm => nm
      | none => "Unknown"
    else "Unknown"
  { id := run.id
    name := match run.name with
            | some nm => if nm = "" then workflow_name else nm
            | none => workflow_name
    workflow_name := workflow_name
    status := run.status
    conclusion := run.conclusion
    event := run.event
    branch := run.head_branch
    commit_sha := match run.head_sha with
                  | some sha => pySlice sha 8
                  | none => ""
    created_at := isoOrEmpty run.created_at
    updated_at := isoOrEmpty run.updated_at
    run_number := run.run_number
    actor := match run.actor with
             | some u => u.login
             | none => "Unknown"
    html_url := run.html_url }

/-! ## Pagination loops

Every list fetcher runs the same loop: `count = 0`, then
`for record in records: if count >= per_page: break; append(...); count += 1`.
`fetchNewIssues` additionally skips PR-backed records *after* the limit
check and *without* touching `count`. -/

/-- The shared `for`-loop body with a running `count` (a Python `int`). -/
def fetchLoopGo {α β : Type} (per_page : Int) (normalize : α → β) :
    List α → Int → List β
  | [], _ => []
  | record :: rest, count =>
    if count ≥ per_page then []
    else normalize record :: fetchLoopGo per_page normalize rest (count + 1)

/-- The shared pagination loop started at `count = 0`. -/
def fetchLoop {α β : Type} (per_page : Int) (normalize : α → β)
    (records : List α) : List β :=
  fetchLoopGo per_page normalize records 0

/-- The `fetchNewIssues` loop (server.py:184-203): limit check, then
`if issue.pull_request: continue`, then append and `count += 1`. -/
def issuesLoopGo (per_page : Int) : List RawIssue → Int → List IssueOut
  | [], _ => []
  | issue :: rest, count =>
    if count ≥ per_page then []
    else if issue.pull_request then issuesLoopGo per_page rest count
    else normalizeIssue issue :: issuesLoopGo per_page rest (count + 1)

/-- The `fetchNewIssues` loop started at `count = 0`. -/
def issuesLoop (per_page : Int) (issues : List RawIssue) : List IssueOut :=
  issuesLoopGo per_page issues 0

/-! ## Resource fetchers

Each fetcher takes the outcome of its upstream calls as `Except`-valued
inputs (an `Except.error` models the call raising) plus the tool's scalar
parameters, and mirrors the `try`/`except` structure of `server.py`: every
raise inside the body surfaces as one wrapped error with the fetcher's
operation name.  Query filters that are merely forwarded upstream (`since`, `state`,
`labels`, `status`, `branch`) are part of the upstream-listing input and are
not repeated as parameters. -/

/-- `fetchNewCommits` (server.py:43-93).  `commitsResult` models
`get_repo` + `get_commits` (including the optional `since` filter). -/
def fetchNewCommits (commitsResult : Except String (List RawCommit))
    (repository : String) (per_page : Int := 30) :
    Except String (List CommitOut) :=
  match parse_repository repository with
  | .error e => .error ("Error fetching commits: " ++ e)
  | .ok _ =>
    match commitsResult with
    | .error e => .error ("Error fetching commits: " ++ e)
    | .ok commits =>
      let per_page := min per_page 100
      .ok (fetchLoop per_page normalizeCommit commits)

/-- `fetchNewPRs` (server.py:96-145). -/
def fetchNewPRs (pullsResult : Except String (List RawPullRequest))
    (repository : String) (per_page : Int := 30) :
    Except String (List PullRequestOut) :=
  match parse_repository repository with
  | .error e => .error ("Error fetching pull requests: " ++ e)
  | .ok _ =>
    match pullsResult with
    | .error e => .error ("Error fetching pull requests: " ++ e)
    | .ok pulls =>
      let per_page := min per_page 100
      .ok (fetchLoop per_page normalizePullRequest pulls)

/-- `fetchNewIssues` (server.py:148-208). -/
def fetchNewIssues (issuesResult : Except String (List RawIssue))
    (repository : String) (per_page : Int := 30) :
    Except String (List IssueOut) :=
  match parse_repository repository with
  | .error e => .error ("Error fetching issues: " ++ e)
  | .ok _ =>
    match issuesResult with
    | .error e => .error ("Error fetching issues: " ++ e)
    | .ok issues =>
      let per_page := min per_page 100
      .ok (issuesLoop per_page issues)

/-- `fetchIssueDetails` (server.py:211-279). -/
def fetchIssueDetails (repoResult : Except String RawRepo)
    (issueResult : Except String RawIssue)
    (repository : String) (issue_number : Int) :
    Except String IssueDetailOut :=
  match parse_repository repository with
  | .error e => .error ("Error fetching issue details: " ++ e)
  | .ok _ =>
    match repoResult with
    | .error e => .error ("Error fetching issue details: " ++ e)
    | .ok repo =>
      match issueResult with
      | .error e => .error ("Error fetching issue details: " ++ e)
      | .ok issue =>
        if issue.pull_request then
          .error ("Error fetching issue details: Issue #" ++
            toString issue_number ++
            " is actually a pull request. Use PR-specific tools instead.")
        else
          .ok (normalizeIssueDetail repo issue)

/-- `fetchIssueComments` (server.py:282-348).  `comments` is the sequence
returned by `issue.get_comments()`. -/
def fetchIssueComments (repoResult : Except String RawRepo)
    (issueResult : Except String RawIssue) (comments : List RawComment)
    (repository : String) (issue_number : Int) (per_page : Int := 30) :
    Except String (List CommentOut) :=
  match parse_repository repository with
  | .error e => .error ("Error fetching issue comments: " ++ e)
  | .ok _ =>
    match repoResult with
    | .error e => .error ("Error fetching issue comments: " ++ e)
    | .ok _ =>
      match issueResult with
      | .error e => .error ("Error fetching issue comments: " ++ e)
      | .ok issue =>
        if issue.pull_request then
          .error ("Error fetching issue comments: Issue #" ++
            toString issue_number ++
            " is actually a pull request. Use PR-specific tools instead.")
        else
          let per_page := min per_page 100
          .ok (fetchLoop per_page normalizeComment comments)

/-- The distinct raise sites of `addIssueComment` (server.py:363-391), in
source order.  Every one is re-raised by the outer handler as
`"Error adding comment to issue: " ++ message`; the constructor records
which site fired. -/
inductive AddCommentError where
  /-- `"GitHub token is required to add comments. Please set the
  GITHUB_TOKEN environment variable."` -/
  | authRequired
  /-- `parse_repository`'s `ValueError`. -/
  | badRepository (msg : String)
  /-- `get_repo` / `get_issue` raising. -/
  | upstream (msg : String)
  /-- `"Issue #n is actually a pull request. Use PR-specific tools
  instead."` -/
  | pullRequestBacked
  /-- `"Issue #n is locked and cannot accept new comments."` -/
  | lockedIssue
  /-- `"Comment body cannot be empty."` -/
  | emptyBody
  deriving DecidableEq

/-- `addIssueComment` (server.py:351-410).  `token` is
`os.environ.get("GITHUB_TOKEN")`; `createComment` models
`issue.create_comment`, applied to the submitted body text and returning
the upstream echo of the created comment.  The credential check is the
first statement after client construction, before `parse_repository` and
before any upstream call. -/
def addIssueComment (token : Option String)
    (repoResult : Except String RawRepo)
    (issueResult : Except String RawIssue)
    (createComment : String → RawComment)
    (repository : String) (issue_number : Int) (comment_body : String) :
    Except AddCommentError CommentCreatedOut :=
  if ¬ pyTruthyStr token then .error .authRequired
  else
    match parse_repository repository with
    | .error e => .error (.badRepository e)
    | .ok (owner, repo_name) =>
      match repoResult with
      | .error e => .error (.upstream e)
      | .ok _ =>
        match issueResult with
        | .error e => .error (.upstream e)
        | .ok issue =>
          if issue.pull_request then .error .pullRequestBacked
          else if issue.locked then .error .lockedIssue
          else if comment_body = "" ∨ pyStrip comment_body = "" then
            .error .emptyBody
          else
            let comment := createComment (pyStrip comment_body)
            .ok { id := comment.id
                  body := comment.body
                  author := match comment.user with
                            | some u => u.login
                            | none => "Unknown"
                  author_association :=
                    match comment.author_association with
                    | some a => a
                    | none => "NONE"
                  created_at := isoOrEmpty comment.created_at
                  updated_at := isoOrEmpty comment.updated_at
                  html_url := comment.html_url
                  issue_number := issue_number
                  repository := owner ++ "/" ++ repo_name
                  success := true }

/-- `fetchReleases` (server.py:467-516). -/
def fetchReleases (releasesResult : Except String (List RawRelease))
    (repository : String) (per_page : Int := 30) :
    Except String (List ReleaseOut) :=
  match parse_repository repository with
  | .error e => .error ("Error fetching releases: " ++ e)
  | .ok _ =>
    match releasesResult with
    | .error e => .error ("Error fetching releases: " ++ e)
    | .ok releases =>
      let per_page := min per_page 100
      .ok (fetchLoop per_page normalizeRelease releases)

/-- The `health_score` accumulation of `getRepoStats` (server.py:579-593),
before the final `min(·, 100)`: sequential `+=` guarded by the Python
truthiness of each attribute.  `contributors_count` is the value already
stored in the stats dict (i.e. after the zero fallback). -/
def health_score (repo : RawRepo) (contributors_count : Nat) : Nat :=
  let h : Nat := 0
  let h := if pyTruthyStr repo.description then h + 10 else h
  let h := if repo.license.isSome then h + 15 else h
  let h := if repo.has_wiki then h + 10 else h
  let h := if repo.has_issues then h + 10 else h
  let h := if contributors_count > 1 then h + 15 else h
  let h := if repo.stargazers_count > 10 then h + 20 else h
  let h := if repo.stargazers_count > 100 then h + 20 else h
  h

/-- `getRepoStats` (server.py:519-600).  `languagesResult` models
`repo.get_languages()` and `contributorsResult` models
`repo.get_contributors().totalCount`; each is independently wrapped in its
own `try`/`except` with fallbacks `\x7b\x7d` and `0`. -/
def getRepoStats (repoResult : Except String RawRepo)
    (languagesResult : Except String (List (String × Nat)))
    (contributorsResult : Except String Nat)
    (repository : String) : Except String RepoStatsOut :=
  match parse_repository repository with
  | .error e => .error ("Error fetching repository stats: " ++ e)
  | .ok _ =>
    match repoResult with
    | .error e => .error ("Error fetching repository stats: " ++ e)
    | .ok repo =>
      let languages := match languagesResult with
                       | .ok langs => langs
                       | .error _ => []
      let contributors_count := match contributorsResult with
                                | .ok c => c
                                | .error _ => 0
      .ok { name := repo.name
            full_name := repo.full_name
            description := repo.description
            stars := repo.stargazers_count
            forks := repo.forks_count
            watchers := repo.watchers_count
            open_issues := repo.open_issues_count
            size_kb := repo.size
            language := repo.language
            languages := languages
            created_at := isoOrEmpty repo.created_at
            updated_at := isoOrEmpty repo.updated_at
            pushed_at := isoOrEmpty repo.pushed_at
            default_branch := repo.default_branch
            archived := repo.archived
            disabled := repo.disabled
            is_private := repo.is_private
            fork := repo.fork
            has_issues := repo.has_issues
            has_projects := repo.has_projects
            has_wiki := repo.has_wiki
            has_pages := repo.has_pages
            license := repo.license
            html_url := repo.html_url
            contributors_count := contributors_count
            health_score := min (health_score repo contributors_count) 100 }

/-- `fetchWorkflowRuns` (server.py:603-671).  `runsResult` models
`get_repo` + `get_workflow_runs` (with any `status` / `branch` filters);
`lookupWorkflow` models `repo.get_workflow(id).name`, `none` standing for
the swallowed per-record lookup failure. -/
def fetchWorkflowRuns (runsResult : Except String (List RawWorkflowRun))
    (lookupWorkflow : Int → Option String)
    (repository : String) (per_page : Int := 30) :
    Except String (List WorkflowRunOut) :=
  match parse_repository repository with
  | .error e => .error ("Error fetching workflow runs: " ++ e)
  | .ok _ =>
    match runsResult with
    | .error e => .error ("Error fetching workflow runs: " ++ e)
    | .ok runs =>
      let per_page := min per_page 100
      .ok (fetchLoop per_page (normalizeWorkflowRun lookupWorkflow) runs)

/-! ## Loop lemmas -/

/-- The shared loop from running count `count` keeps the first
`per_page - count` records (clamped at `0`) and maps the normalizer. -/
theorem fetchLoopGo_eq_take_map {α β : Type} (per_page : Int) (f : α → β)
    (l : List α) (count : Int) :
    fetchLoopGo per_page f l count =
      (l.take (per_page - count).toNat).map f := by
  induction l generalizing count with
  | nil => simp [fetchLoopGo]
  | cons x rest ih =>
    simp only [fetchLoopGo]
    by_cases h : count ≥ per_page
    · rw [if_pos h]
      have h0 : (per_page - count).toNat = 0 := by omega
      simp [h0]
    · rw [if_neg h]
      have hsub : (per_page - count).toNat = (per_page - (count + 1)).toNat + 1 := by
        omega
      rw [hsub, List.take_succ_cons, List.map_cons, ih]

/-- The shared pagination loop is `take` (of the requested size, clamped at
`0` for negative requests) composed with `map`. -/
theorem fetchLoop_eq_take_map {α β : Type} (per_page : Int) (f : α → β)
    (l : List α) :
    fetchLoop per_page f l = (l.take per_page.toNat).map f := by
  rw [fetchLoop, fetchLoopGo_eq_take_map]
  norm_num

/-- The issues loop from running count `count`: filter out PR-backed
records, then take and normalize. -/
theorem issuesLoopGo_eq (per_page : Int) (l : List RawIssue) (count : Int) :
    issuesLoopGo per_page l count =
      ((l.filter (fun i => !i.pull_request)).take
        (per_page - count).toNat).map normalizeIssue := by
  induction l generalizing count with
  | nil => simp [issuesLoopGo]
  | cons issue rest ih =>
    simp only [issuesLoopGo]
    by_cases h : count ≥ per_page
    · rw [if_pos h]
      have h0 : (per_page - count).toNat = 0 := by omega
      simp [h0]
    · rw [if_neg h]
      cases hpr : issue.pull_request
      · have hsub : (per_page - count).toNat =
            (per_page - (count + 1)).toNat + 1 := by omega
        simp only [hpr, Bool.false_eq_true, if_false, List.filter_cons, hpr,
          Bool.not_false, if_pos, hsub, List.take_succ_cons, List.map_cons, ih]
      · simp only [hpr, if_true, List.filter_cons, hpr, Bool.not_true,
          if_neg, ih]
        simp

/-- `fetchNewIssues`' loop is filter-then-take-then-map. -/
theorem issuesLoop_eq (per_page : Int) (l : List RawIssue) :
    issuesLoop per_page l =
      ((l.filter (fun i => !i.pull_request)).take per_page.toNat).map
        normalizeIssue := by
  rw [issuesLoop, issuesLoopGo_eq]
  norm_num

/-! ## Fetcher-level lemmas and claim theorems -/

theorem parse_repository_ok_iff (s a b : String) :
    parse_repository s = .ok (a, b) ↔ splitSlash s.data = [a.data, b.data] := by
  unfold parse_repository
  cases h : splitSlash s.data with
  | nil => exact absurd h (splitSlash_ne_nil _)
  | cons x t =>
    cases t with
    | nil =>
      simp only [List.map_cons, List.map_nil]
      constructor
      · intro hh
        cases hh
      · intro hh
        cases hh
    | cons y t2 =>
      cases t2 with
      | nil =>
        simp only [List.map_cons, List.map_nil, Except.ok.injEq,
          Prod.mk.injEq, List.cons.injEq, and_true]
        cases a with
        | mk ad =>
          cases b with
          | mk bd =>
            constructor
            · intro ⟨h1, h2⟩
              cases h1
              cases h2
              exact ⟨rfl, rfl⟩
            · intro ⟨h1, h2⟩
              cases h1
              cases h2
              exact ⟨rfl, rfl⟩
      | cons z t3 =>
        simp only [List.map_cons]
        constructor
        · intro hh
          cases hh
        · intro hh
          cases hh

theorem parse_repository_isOk_iff (s : String) :
    (parse_repository s).isOk = true ↔ s.data.count '/' = 1 := by
  have hlen := splitSlash_length s.data
  unfold parse_repository
  cases h : splitSlash s.data with
  | nil => exact absurd h (splitSlash_ne_nil _)
  | cons x t =>
    rw [h] at hlen
    cases t with
    | nil =>
      simp only [List.length_cons, List.length_nil] at hlen
      simp only [List.map_cons, List.map_nil, Except.isOk]
      constructor
      · intro hh
        cases hh
      · intro hh
        omega
    | cons y t2 =>
      cases t2 with
      | nil =>
        simp only [List.length_cons, List.length_nil] at hlen
        simp only [List.map_cons, List.map_nil, Except.isOk]
        constructor
        · intro _
          omega
        · intro _
          rfl
      | cons z t3 =>
        simp only [List.length_cons] at hlen
        simp only [List.map_cons, Except.isOk]
        constructor
        · intro hh
          cases hh
        · intro hh
          omega

theorem fetchNewCommits_ok (commits : List RawCommit)
    (repository o n : String) (per_page : Int)
    (h : parse_repository repository = .ok (o, n)) :
    fetchNewCommits (.ok commits) repository per_page =
      .ok ((commits.take (min per_page 100).toNat).map normalizeCommit) := by
  simp only [fetchNewCommits, h, fetchLoop_eq_take_map]

theorem fetchNewPRs_ok (pulls : List RawPullRequest)
    (repository o n : String) (per_page : Int)
    (h : parse_repository repository = .ok (o, n)) :
    fetchNewPRs (.ok pulls) repository per_page =
      .ok ((pulls.take (min per_page 100).toNat).map normalizePullRequest) := by
  simp only [fetchNewPRs, h, fetchLoop_eq_take_map]

theorem fetchNewIssues_ok (issues : List RawIssue)
    (repository o n : String) (per_page : Int)
    (h : parse_repository repository = .ok (o, n)) :
    fetchNewIssues (.ok issues) repository per_page =
      .ok (((issues.filter (fun i => !i.pull_request)).take
        (min per_page 100).toNat).map normalizeIssue) := by
  simp only [fetchNewIssues, h, issuesLoop_eq]

theorem fetchIssueDetails_ok (repo : RawRepo) (issue : RawIssue)
    (repository : String) (issue_number : Int) (o n : String)
    (h : parse_repository repository = .ok (o, n))
    (hpr : issue.pull_request = false) :
    fetchIssueDetails (.ok repo) (.ok issue) repository issue_number =
      .ok (normalizeIssueDetail repo issue) := by
  simp only [fetchIssueDetails, h, hpr, Bool.false_eq_true, if_false]

theorem fetchIssueComments_ok (repo : RawRepo) (issue : RawIssue)
    (comments : List RawComment) (repository : String) (issue_number : Int)
    (o n : String) (per_page : Int)
    (h : parse_repository repository = .ok (o, n))
    (hpr : issue.pull_request = false) :
    fetchIssueComments (.ok repo) (.ok issue) comments repository
        issue_number per_page =
      .ok ((comments.take (min per_page 100).toNat).map normalizeComment) := by
  simp only [fetchIssueComments, h, hpr, Bool.false_eq_true, if_false,
    fetchLoop_eq_take_map]

theorem fetchReleases_ok (releases : List RawRelease)
    (repository o n : String) (per_page : Int)
    (h : parse_repository repository = .ok (o, n)) :
    fetchReleases (.ok releases) repository per_page =
      .ok ((releases.take (min per_page 100).toNat).map normalizeRelease) := by
  simp only [fetchReleases, h, fetchLoop_eq_take_map]

theorem fetchWorkflowRuns_ok (runs : List RawWorkflowRun)
    (lookupWorkflow : Int → Option String)
    (repository o n : String) (per_page : Int)
    (h : parse_repository repository = .ok (o, n)) :
    fetchWorkflowRuns (.ok runs) lookupWorkflow repository per_page =
      .ok ((runs.take (min per_page 100).toNat).map
        (normalizeWorkflowRun lookupWorkflow)) := by
  simp only [fetchWorkflowRuns, h, fetchLoop_eq_take_map]

theorem getRepoStats_ok (repo : RawRepo)
    (languagesResult : Except String (List (String × Nat)))
    (contributorsResult : Except String Nat)
    (repository o n : String)
    (h : parse_repository repository = .ok (o, n)) :
    getRepoStats (.ok repo) languagesResult contributorsResult repository =
      .ok { name := repo.name
            full_name := repo.full_name
            description := repo.description
            stars := repo.stargazers_count
            forks := repo.forks_count
            watchers := repo.watchers_count
            open_issues := repo.open_issues_count
            size_kb := repo.size
            language := repo.language
            languages := match languagesResult with
                         | .ok langs => langs
                         | .error _ => []
            created_at := isoOrEmpty repo.created_at
            updated_at := isoOrEmpty repo.updated_at
            pushed_at := isoOrEmpty repo.pushed_at
            default_branch := repo.default_branch
            archived := repo.archived
            disabled := repo.disabled
            is_private := repo.is_private
            fork := repo.fork
            has_issues := repo.has_issues
            has_projects := repo.has_projects
            has_wiki := repo.has_wiki
            has_pages := repo.has_pages
            license := repo.license
            html_url := repo.html_url
            contributors_count := match contributorsResult with
                                  | .ok c => c
                                  | .error _ => 0
            health_score := min (health_score repo
              (match contributorsResult with
               | .ok c => c
               | .error _ => 0)) 100 } := by
  simp only [getRepoStats, h]

/-- The created-comment dict of `addIssueComment`'s success path, as a
function of the upstream echo `comment`, for stating theorems about which
argument reaches `issue.create_comment`. -/
def createdCommentOut (comment : RawComment) (issue_number : Int)
    (repository : String) : CommentCreatedOut :=
  { id := comment.id
    body := comment.body
    author := match comment.user with
              | some u => u.login
              | none => "Unknown"
    author_association := match comment.author_association with
                          | some a => a
                          | none => "NONE"
    created_at := isoOrEmpty comment.created_at
    updated_at := isoOrEmpty comment.updated_at
    html_url := comment.html_url
    issue_number := issue_number
    repository := repository
    success := true }

theorem addIssueComment_no_token (token : Option String)
    (repoResult : Except String RawRepo)
    (issueResult : Except String RawIssue)
    (createComment : String → RawComment)
    (repository : String) (issue_number : Int) (comment_body : String)
    (htok : pyTruthyStr token = false) :
    addIssueComment token repoResult issueResult createComment repository
      issue_number comment_body = .error .authRequired := by
  simp [addIssueComment, htok]

theorem addIssueComment_locked (token : Option String) (repo : RawRepo)
    (issue : RawIssue) (createComment : String → RawComment)
    (repository o n : String) (issue_number : Int) (comment_body : String)
    (htok : pyTruthyStr token = true)
    (h : parse_repository repository = .ok (o, n))
    (hpr : issue.pull_request = false) (hlock : issue.locked = true) :
    addIssueComment token (.ok repo) (.ok issue) createComment repository
      issue_number comment_body = .error .lockedIssue := by
  simp [addIssueComment, htok, h, hpr, hlock]

theorem addIssueComment_empty_body (token : Option String) (repo : RawRepo)
    (issue : RawIssue) (createComment : String → RawComment)
    (repository o n : String) (issue_number : Int) (comment_body : String)
    (htok : pyTruthyStr token = true)
    (h : parse_repository repository = .ok (o, n))
    (hpr : issue.pull_request = false) (hlock : issue.locked = false)
    (hbody : pyStrip comment_body = "") :
    addIssueComment token (.ok repo) (.ok issue) createComment repository
      issue_number comment_body = .error .emptyBody := by
  simp [addIssueComment, htok, h, hpr, hlock, hbody]

theorem addIssueComment_success (token : Option String) (repo : RawRepo)
    (issue : RawIssue) (createComment : String → RawComment)
    (repository o n : String) (issue_number : Int) (comment_body : String)
    (htok : pyTruthyStr token = true)
    (h : parse_repository repository = .ok (o, n))
    (hpr : issue.pull_request = false) (hlock : issue.locked = false)
    (hbody : pyStrip comment_body ≠ "") :
    addIssueComment token (.ok repo) (.ok issue) createComment repository
      issue_number comment_body =
      .ok (createdCommentOut (createComment (pyStrip comment_body)) issue_number
        (o ++ "/" ++ n)) := by
  have hne : comment_body ≠ "" := by
    intro he
    apply hbody
    rw [he]
    rfl
  simp [addIssueComment, htok, h, hpr, hlock, hbody, hne, createdCommentOut]

/-! ## Concrete sample data

Shared sample records used by witness and counterexample theorems. -/

/-- A sample repository record. -/
def sampleRepo : RawRepo :=
  { name := "hello", full_name := "octo/hello", description := some "demo",
    stargazers_count := 150, license := some "MIT", html_url := "u" }

/-- A sample genuine issue with no upstream reaction data. -/
def sampleIssue : RawIssue := { number := 7 }

/-- A sample genuine issue whose upstream record exposes reaction data. -/
def sampleIssueWithReactions : RawIssue :=
  { number := 8,
    reactions := some { total_count := 3, plus_one := 2, heart := 1 } }

/-- A sample PR-backed issue record. -/
def samplePRIssue : RawIssue := { number := 9, pull_request := true }

/-- A sample locked genuine issue. -/
def sampleLockedIssue : RawIssue := { number := 10, locked := true }

/-- A sample comment with no upstream reaction data. -/
def sampleComment : RawComment := { id := 1 }

/-- A sample commit. -/
def sampleCommit : RawCommit := { sha := "abc0123" }

/-- A sample pull request. -/
def samplePull : RawPullRequest := { number := 1 }

/-- A sample release without a body. -/
def sampleRelease : RawRelease := { tag_name := "v1" }

/-- A 600-character release body. -/
def longBody : String := String.mk (List.replicate 600 'a')

/-- A sample release whose body has 600 characters. -/
def sampleLongRelease : RawRelease :=
  { tag_name := "v2", body := some longBody }

/-- A sample release whose body has 500 characters or fewer. -/
def sampleShortRelease : RawRelease :=
  { tag_name := "v3", body := some "short notes" }

/-- A sample workflow run. -/
def sampleRun : RawWorkflowRun := { id := 5 }

/-- A sample upstream `create_comment` echo. -/
def sampleCreate : String → RawComment := fun b => { id := 99, body := some b }

/-! ## Claim theorems -/

/-- C1, counterexample: on an issue-detail response whose upstream record
exposes no reaction data, the returned reactions object is the *empty*
dict — it does not contain the reaction keys with zero values, refuting
the claim that all eight keys are present defaulting to zero. -/
theorem reactions_empty_dict_when_absent :
    fetchIssueDetails (.ok sampleRepo) (.ok sampleIssue) "octo/hello" 7 =
      .ok (normalizeIssueDetail sampleRepo sampleIssue) ∧
    (normalizeIssueDetail sampleRepo sampleIssue).reactions = none ∧
    (normalizeIssueDetail sampleRepo sampleIssue).reactions ≠
      some { total_count := 0, plus_one := 0, minus_one := 0, laugh := 0,
             hooray := 0, confused := 0, heart := 0, rocket := 0,
             eyes := 0 } := by
  refine ⟨rfl, rfl, ?_⟩
  intro h
  cases h

/-- C1 (amended): on every issue-detail and issue-comment response, the
reactions object carries all the reaction keys (with the upstream values)
exactly when the upstream record exposes reaction data; when the upstream
record exposes no reaction data the reactions object is the empty dict
(modelled `none`), not a zero-filled one. -/
theorem reactions_all_keys_iff_upstream_exposed (repo : RawRepo)
    (issue : RawIssue) (comments : List RawComment)
    (repository o n : String) (issue_number : Int) (per_page : Int)
    (h : parse_repository repository = .ok (o, n))
    (hpr : issue.pull_request = false) :
    (issue.reactions = none →
      (normalizeIssueDetail repo issue).reactions = none) ∧
    (∀ r, issue.reactions = some r →
      (normalizeIssueDetail repo issue).reactions =
        some (normalizeReactions r)) ∧
    fetchIssueDetails (.ok repo) (.ok issue) repository issue_number =
      .ok (normalizeIssueDetail repo issue) ∧
    fetchIssueComments (.ok repo) (.ok issue) comments repository
        issue_number per_page =
      .ok ((comments.take (min per_page 100).toNat).map normalizeComment) ∧
    (∀ c : RawComment, c.reactions = none →
      (normalizeComment c).reactions = none) ∧
    (∀ c : RawComment, ∀ r, c.reactions = some r →
      (normalizeComment c).reactions = some (normalizeReactions r)) := by
  refine ⟨?_, ?_, fetchIssueDetails_ok repo issue repository issue_number o n
    h hpr, fetchIssueComments_ok repo issue comments repository issue_number
    o n per_page h hpr, ?_, ?_⟩
  · intro hr
    simp [normalizeIssueDetail, hr]
  · intro r hr
    simp [normalizeIssueDetail, hr]
  · intro c hr
    simp [normalizeComment, hr]
  · intro c r hr
    simp [normalizeComment, hr]

/-- C1, witness: the amended theorem applied to concrete records with and
without upstream reaction data. -/
theorem reactions_all_keys_witness :
    (normalizeIssueDetail sampleRepo sampleIssue).reactions = none ∧
    (normalizeIssueDetail sampleRepo sampleIssueWithReactions).reactions =
      some (normalizeReactions
        { total_count := 3, plus_one := 2, heart := 1 }) ∧
    (normalizeComment sampleComment).reactions = none := by
  have h1 := reactions_all_keys_iff_upstream_exposed sampleRepo sampleIssue
    [] "octo/hello" "octo" "hello" 7 30 rfl rfl
  have h2 := reactions_all_keys_iff_upstream_exposed sampleRepo
    sampleIssueWithReactions [] "octo/hello" "octo" "hello" 8 30 rfl rfl
  exact ⟨h1.1 rfl, h2.2.1 _ rfl, h1.2.2.2.2.1 sampleComment rfl⟩

/-- C2, counterexample: an identifier with an empty name segment is
accepted by `parse_repository` (the claim says it must fail with a
validation error). -/
theorem parse_repository_accepts_empty_segment :
    parse_repository "owner/" = .ok ("owner", "") := rfl

/-- C2 (amended): `parse_repository` succeeds exactly when splitting on
`/` yields two segments, i.e. when the identifier contains exactly one
`/`; the two segments (which may be empty — emptiness is not validated)
are returned as owner and name.  Any identifier with zero or at least two
`/` characters fails with the validation error. -/
theorem parse_repository_characterization (s a b : String) :
    (parse_repository s = .ok (a, b) ↔
      s.data = a.data ++ '/' :: b.data ∧ '/' ∉ a.data ∧ '/' ∉ b.data) ∧
    ((parse_repository s).isOk = true ↔ s.data.count '/' = 1) :=
  ⟨(parse_repository_ok_iff s a b).trans
    (splitSlash_pair s.data a.data b.data),
   parse_repository_isOk_iff s⟩

/-- An additional sample genuine issue. -/
def issue13 : RawIssue := { number := 13 }

/-- C3: `fetchNewIssues` never includes a PR-backed record; the result is
exactly the non-PR-backed records, normalized, up to the effective page
size, and its length is the minimum of the effective size and the number
of accepted records — so skipped PR-backed records neither appear nor
count toward the limit nor end the iteration early. -/
theorem fetchNewIssues_skips_pr_records (issues : List RawIssue)
    (repository o n : String) (per_page : Int)
    (h : parse_repository repository = .ok (o, n)) :
    fetchNewIssues (.ok issues) repository per_page =
      .ok (((issues.filter (fun i => !i.pull_request)).take
        (min per_page 100).toNat).map normalizeIssue) ∧
    (∀ out, out ∈ (((issues.filter (fun i => !i.pull_request)).take
        (min per_page 100).toNat).map normalizeIssue) →
      ∃ raw, raw ∈ issues ∧ raw.pull_request = false ∧
        out = normalizeIssue raw) ∧
    (((issues.filter (fun i => !i.pull_request)).take
        (min per_page 100).toNat).map normalizeIssue).length =
      min (min per_page 100).toNat
        (issues.filter (fun i => !i.pull_request)).length := by
  refine ⟨fetchNewIssues_ok issues repository o n per_page h, ?_, ?_⟩
  · intro out hout
    obtain ⟨raw, hraw, rfl⟩ := List.mem_map.mp hout
    have hmem := List.mem_of_mem_take hraw
    have hfil := List.mem_filter.mp hmem
    refine ⟨raw, hfil.1, ?_, rfl⟩
    simpa using hfil.2
  · rw [List.length_map, List.length_take]

/-- C3, witness: five upstream records of which two are PR-backed, with a
page size of three: the three genuine issues are returned. -/
theorem fetchNewIssues_skips_pr_records_witness :
    fetchNewIssues (.ok [samplePRIssue, sampleIssue, samplePRIssue,
      sampleIssueWithReactions, issue13]) "octo/hello" 3 =
      .ok [normalizeIssue sampleIssue,
           normalizeIssue sampleIssueWithReactions,
           normalizeIssue issue13] := by
  have h := (fetchNewIssues_skips_pr_records [samplePRIssue, sampleIssue,
    samplePRIssue, sampleIssueWithReactions, issue13] "octo/hello" "octo"
    "hello" 3 rfl).1
  rw [h]
  rfl

/-- C4: every list fetcher clamps the requested size to an effective
`min(n, 100)` and returns at most that many records; `30` is the declared
default; a zero or negative request still returns successfully instead of
raising. -/
theorem effective_page_size_min_100 (commits : List RawCommit)
    (pulls : List RawPullRequest) (issues : List RawIssue)
    (comments : List RawComment) (releases : List RawRelease)
    (runs : List RawWorkflowRun) (repo : RawRepo) (issue : RawIssue)
    (lookupWorkflow : Int → Option String)
    (repository o n : String) (issue_number : Int) (per_page : Int)
    (h : parse_repository repository = .ok (o, n))
    (hpr : issue.pull_request = false) :
    fetchNewCommits (.ok commits) repository per_page =
      .ok ((commits.take (min per_page 100).toNat).map normalizeCommit) ∧
    fetchReleases (.ok releases) repository per_page =
      .ok ((releases.take (min per_page 100).toNat).map normalizeRelease) ∧
    (∀ out, fetchNewCommits (.ok commits) repository per_page = .ok out →
      out.length ≤ (min per_page 100).toNat) ∧
    (∀ out, fetchNewPRs (.ok pulls) repository per_page = .ok out →
      out.length ≤ (min per_page 100).toNat) ∧
    (∀ out, fetchNewIssues (.ok issues) repository per_page = .ok out →
      out.length ≤ (min per_page 100).toNat) ∧
    (∀ out, fetchIssueComments (.ok repo) (.ok issue) comments repository
        issue_number per_page = .ok out →
      out.length ≤ (min per_page 100).toNat) ∧
    (∀ out, fetchReleases (.ok releases) repository per_page = .ok out →
      out.length ≤ (min per_page 100).toNat) ∧
    (∀ out, fetchWorkflowRuns (.ok runs) lookupWorkflow repository
        per_page = .ok out → out.length ≤ (min per_page 100).toNat) ∧
    fetchNewCommits (.ok commits) repository =
      fetchNewCommits (.ok commits) repository 30 ∧
    fetchReleases (.ok releases) repository =
      fetchReleases (.ok releases) repository 30 ∧
    (fetchNewCommits (.ok commits) repository per_page).isOk = true ∧
    (fetchNewPRs (.ok pulls) repository per_page).isOk = true ∧
    (fetchNewIssues (.ok issues) repository per_page).isOk = true ∧
    (fetchIssueComments (.ok repo) (.ok issue) comments repository
      issue_number per_page).isOk = true ∧
    (fetchReleases (.ok releases) repository per_page).isOk = true ∧
    (fetchWorkflowRuns (.ok runs) lookupWorkflow repository
      per_page).isOk = true := by
  have hc := fetchNewCommits_ok commits repository o n per_page h
  have hp := fetchNewPRs_ok pulls repository o n per_page h
  have hi := fetchNewIssues_ok issues repository o n per_page h
  have hcm := fetchIssueComments_ok repo issue comments repository
    issue_number o n per_page h hpr
  have hr := fetchReleases_ok releases repository o n per_page h
  have hw := fetchWorkflowRuns_ok runs lookupWorkflow repository o n
    per_page h
  refine ⟨hc, hr, ?_, ?_, ?_, ?_, ?_, ?_, rfl, rfl, ?_, ?_, ?_, ?_, ?_, ?_⟩
  · intro out hout
    rw [hc] at hout
    cases hout
    rw [List.length_map, List.length_take]
    exact min_le_left _ _
  · intro out hout
    rw [hp] at hout
    cases hout
    rw [List.length_map, List.length_take]
    exact min_le_left _ _
  · intro out hout
    rw [hi] at hout
    cases hout
    rw [List.length_map, List.length_take]
    exact min_le_left _ _
  · intro out hout
    rw [hcm] at hout
    cases hout
    rw [List.length_map, List.length_take]
    exact min_le_left _ _
  · intro out hout
    rw [hr] at hout
    cases hout
    rw [List.length_map, List.length_take]
    exact min_le_left _ _
  · intro out hout
    rw [hw] at hout
    cases hout
    rw [List.length_map, List.length_take]
    exact min_le_left _ _
  · rw [hc]
    rfl
  · rw [hp]
    rfl
  · rw [hi]
    rfl
  · rw [hcm]
    rfl
  · rw [hr]
    rfl
  · rw [hw]
    rfl

/-- C4, witness: a page size of `2` keeps one available commit; a negative
page size still succeeds (with no error raised); omitting the size equals
passing `30`. -/
theorem effective_page_size_min_100_witness :
    fetchNewCommits (.ok [sampleCommit]) "octo/hello" 2 =
      .ok [normalizeCommit sampleCommit] ∧
    (fetchNewPRs (.ok [samplePull]) "octo/hello" (-3)).isOk = true ∧
    fetchNewCommits (.ok [sampleCommit]) "octo/hello" =
      fetchNewCommits (.ok [sampleCommit]) "octo/hello" 30 := by
  have h := effective_page_size_min_100 [sampleCommit] [samplePull] [] []
    [] [] sampleRepo sampleIssue (fun _ => none) "octo/hello" "octo"
    "hello" 7 2 rfl rfl
  have h2 := effective_page_size_min_100 [sampleCommit] [samplePull] [] []
    [] [] sampleRepo sampleIssue (fun _ => none) "octo/hello" "octo"
    "hello" 7 (-3) rfl rfl
  obtain ⟨hc, -, -, -, -, -, -, -, hdef, -, -, -, -, -, -, -⟩ := h
  obtain ⟨-, -, -, -, -, -, -, -, -, -, -, hok, -, -, -, -⟩ := h2
  refine ⟨?_, hok, hdef⟩
  rw [hc]
  rfl

theorem health_score_eq_sum (repo : RawRepo) (contributors_count : Nat) :
    health_score repo contributors_count =
      (if pyTruthyStr repo.description then 10 else 0) +
      (if repo.license.isSome then 15 else 0) +
      (if repo.has_wiki then 10 else 0) +
      (if repo.has_issues then 10 else 0) +
      (if contributors_count > 1 then 15 else 0) +
      (if repo.stargazers_count > 10 then 20 else 0) +
      (if repo.stargazers_count > 100 then 20 else 0) := by
  by_cases h1 : pyTruthyStr repo.description = true <;>
  by_cases h2 : repo.license.isSome = true <;>
  by_cases h3 : repo.has_wiki = true <;>
  by_cases h4 : repo.has_issues = true <;>
  by_cases h5 : contributors_count > 1 <;>
  by_cases h6 : repo.stargazers_count > 10 <;>
  by_cases h7 : repo.stargazers_count > 100 <;>
  simp [health_score, h1, h2, h3, h4, h5, h6, h7]

/-- C5: the health score is `min` of the additive sum and `100`
(description +10, license +15, wiki +10, issues +10, more than one
contributor +15, more than 10 stars +20, more than 100 stars a further
+20); it never exceeds 100 and is monotone non-decreasing in every
contributing factor; `getRepoStats` stores exactly this value. -/
theorem health_score_bounded_monotone (repo : RawRepo)
    (contributors_count : Nat) (repository o n : String)
    (languagesResult : Except String (List (String × Nat)))
    (contributorsResult : Except String Nat) :
    min (health_score repo contributors_count) 100 =
      min ((if pyTruthyStr repo.description then 10 else 0) +
           (if repo.license.isSome then 15 else 0) +
           (if repo.has_wiki then 10 else 0) +
           (if repo.has_issues then 10 else 0) +
           (if contributors_count > 1 then 15 else 0) +
           (if repo.stargazers_count > 10 then 20 else 0) +
           (if repo.stargazers_count > 100 then 20 else 0)) 100 ∧
    min (health_score repo contributors_count) 100 ≤ 100 ∧
    (∀ s1 s2 : Nat, s1 ≤ s2 →
      min (health_score { repo with stargazers_count := s1 }
        contributors_count) 100 ≤
      min (health_score { repo with stargazers_count := s2 }
        contributors_count) 100) ∧
    (∀ c1 c2 : Nat, c1 ≤ c2 →
      min (health_score repo c1) 100 ≤ min (health_score repo c2) 100) ∧
    min (health_score { repo with description := none }
      contributors_count) 100 ≤
      min (health_score repo contributors_count) 100 ∧
    min (health_score { repo with license := none }
      contributors_count) 100 ≤
      min (health_score repo contributors_count) 100 ∧
    min (health_score { repo with has_wiki := false }
      contributors_count) 100 ≤
      min (health_score { repo with has_wiki := true }
        contributors_count) 100 ∧
    min (health_score { repo with has_issues := false }
      contributors_count) 100 ≤
      min (health_score { repo with has_issues := true }
        contributors_count) 100 ∧
    (parse_repository repository = .ok (o, n) →
      ∀ stats, getRepoStats (.ok repo) languagesResult contributorsResult
          repository = .ok stats →
        stats.health_score =
          min (health_score repo stats.contributors_count) 100) := by
  refine ⟨by rw [health_score_eq_sum], min_le_right _ _, ?_, ?_, ?_, ?_,
    ?_, ?_, ?_⟩
  · intro s1 s2 hs
    rw [health_score_eq_sum, health_score_eq_sum]
    simp only
    gcongr <;> split_ifs <;> omega
  · intro c1 c2 hcc
    rw [health_score_eq_sum, health_score_eq_sum]
    gcongr <;> split_ifs <;> omega
  · rw [health_score_eq_sum, health_score_eq_sum]
    simp only
    gcongr <;> split_ifs <;> simp_all [pyTruthyStr]
  · rw [health_score_eq_sum, health_score_eq_sum]
    simp only
    gcongr <;> split_ifs <;> simp_all
  · rw [health_score_eq_sum, health_score_eq_sum]
    simp only
    gcongr <;> split_ifs <;> simp_all
  · rw [health_score_eq_sum, health_score_eq_sum]
    simp only
    gcongr <;> split_ifs <;> simp_all
  · intro hparse stats heq
    rw [getRepoStats_ok repo languagesResult contributorsResult repository
      o n hparse] at heq
    cases heq
    rfl

/-- C5, witness: the theorem at a concrete repository (description,
license, wiki, issues, 2 contributors, 150 stars) scoring exactly 100. -/
theorem health_score_witness :
    min (health_score sampleRepo 2) 100 ≤ 100 ∧
    min (health_score { sampleRepo with stargazers_count := 5 } 2) 100 ≤
      min (health_score { sampleRepo with stargazers_count := 500 } 2)
        100 ∧
    min (health_score sampleRepo 0) 100 ≤
      min (health_score sampleRepo 2) 100 ∧
    health_score sampleRepo 2 = 100 := by
  have h := health_score_bounded_monotone sampleRepo 2 "octo/hello" "octo"
    "hello" (.ok []) (.ok 2)
  obtain ⟨-, hb, hstars, hcc, -⟩ := h
  exact ⟨hb, hstars 5 500 (by norm_num), hcc 0 2 (by norm_num), by decide⟩

/-- C6: with no credential configured, `addIssueComment` fails with the
authentication-required error regardless of the body content; the
locked-issue check (domain error) and the whitespace-only body check
(validation error) only fire when a credential is present; on success the
body submitted to `create_comment` is the stripped body. -/
theorem addIssueComment_auth_precedes_validation (token : Option String)
    (repoResult : Except String RawRepo)
    (issueResult : Except String RawIssue) (repo : RawRepo)
    (issue : RawIssue) (createComment : String → RawComment)
    (repository o n : String) (issue_number : Int)
    (comment_body : String) :
    (pyTruthyStr token = false →
      addIssueComment token repoResult issueResult createComment
        repository issue_number comment_body = .error .authRequired) ∧
    (pyTruthyStr token = true →
      parse_repository repository = .ok (o, n) →
      issue.pull_request = false → issue.locked = true →
      addIssueComment token (.ok repo) (.ok issue) createComment
        repository issue_number comment_body = .error .lockedIssue) ∧
    (pyTruthyStr token = true →
      parse_repository repository = .ok (o, n) →
      issue.pull_request = false → issue.locked = false →
      pyStrip comment_body = "" →
      addIssueComment token (.ok repo) (.ok issue) createComment
        repository issue_number comment_body = .error .emptyBody) ∧
    (pyTruthyStr token = true →
      parse_repository repository = .ok (o, n) →
      issue.pull_request = false → issue.locked = false →
      pyStrip comment_body ≠ "" →
      addIssueComment token (.ok repo) (.ok issue) createComment
        repository issue_number comment_body =
        .ok (createdCommentOut (createComment (pyStrip comment_body))
          issue_number (o ++ "/" ++ n))) := by
  refine ⟨?_, ?_, ?_, ?_⟩
  · intro htok
    exact addIssueComment_no_token token repoResult issueResult
      createComment repository issue_number comment_body htok
  · intro htok h hpr hlock
    exact addIssueComment_locked token repo issue createComment repository
      o n issue_number comment_body htok h hpr hlock
  · intro htok h hpr hlock hbody
    exact addIssueComment_empty_body token repo issue createComment
      repository o n issue_number comment_body htok h hpr hlock hbody
  · intro htok h hpr hlock hbody
    exact addIssueComment_success token repo issue createComment
      repository o n issue_number comment_body htok h hpr hlock hbody

/-- C6, witness: the four paths at concrete inputs — no token (auth error
even with a bad repository and empty body), locked issue, whitespace-only
body, and a successful submission of the stripped body. -/
theorem addIssueComment_auth_precedes_validation_witness :
    addIssueComment none (.error "boom") (.error "nope") sampleCreate
      "not-a-repo" 7 "" = .error .authRequired ∧
    addIssueComment (some "tok") (.ok sampleRepo) (.ok sampleLockedIssue)
      sampleCreate "octo/hello" 10 "hi" = .error .lockedIssue ∧
    addIssueComment (some "tok") (.ok sampleRepo) (.ok sampleIssue)
      sampleCreate "octo/hello" 7 "   " = .error .emptyBody ∧
    addIssueComment (some "tok") (.ok sampleRepo) (.ok sampleIssue)
      sampleCreate "octo/hello" 7 " hi " =
      .ok (createdCommentOut (sampleCreate (pyStrip " hi ")) 7
        ("octo" ++ "/" ++ "hello")) := by
  refine ⟨?_, ?_, ?_, ?_⟩
  · exact (addIssueComment_auth_precedes_validation none (.error "boom")
      (.error "nope") sampleRepo sampleIssue sampleCreate "not-a-repo" "o"
      "n" 7 "").1 rfl
  · exact (addIssueComment_auth_precedes_validation (some "tok")
      (.ok sampleRepo) (.ok sampleLockedIssue) sampleRepo
      sampleLockedIssue sampleCreate "octo/hello" "octo" "hello" 10
      "hi").2.1 (by decide) rfl rfl rfl
  · exact (addIssueComment_auth_precedes_validation (some "tok")
      (.ok sampleRepo) (.ok sampleIssue) sampleRepo sampleIssue
      sampleCreate "octo/hello" "octo" "hello" 7 "   ").2.2.1 (by decide)
      rfl rfl rfl rfl
  · exact (addIssueComment_auth_precedes_validation (some "tok")
      (.ok sampleRepo) (.ok sampleIssue) sampleRepo sampleIssue
      sampleCreate "octo/hello" "octo" "hello" 7 " hi ").2.2.2 (by decide)
      rfl rfl rfl (by decide)

/-- C10: the credential check of `addIssueComment` runs before the
repository identifier is parsed and before any upstream lookup: with no
configured token (`None` or the falsy empty string), the call fails with
the authentication error for *every* repository string (malformed ones
included), every upstream outcome (nonexistent issues included) and every
body (empty ones included). -/
theorem addIssueComment_credential_check_first
    (repoResult : Except String RawRepo)
    (issueResult : Except String RawIssue)
    (createComment : String → RawComment) (repository : String)
    (issue_number : Int) (comment_body : String) :
    addIssueComment none repoResult issueResult createComment repository
      issue_number comment_body = .error .authRequired ∧
    addIssueComment (some "") repoResult issueResult createComment
      repository issue_number comment_body = .error .authRequired :=
  ⟨addIssueComment_no_token none repoResult issueResult createComment
    repository issue_number comment_body rfl,
   addIssueComment_no_token (some "") repoResult issueResult createComment
    repository issue_number comment_body (by decide)⟩

/-- The primary repository fields of a stats result agree with the
upstream record (every field other than the two best-effort values and the
derived health score). -/
def primaryFieldsMatch (stats : RepoStatsOut) (repo : RawRepo) : Prop :=
  stats.name = repo.name ∧ stats.full_name = repo.full_name ∧
  stats.description = repo.description ∧
  stats.stars = repo.stargazers_count ∧ stats.forks = repo.forks_count ∧
  stats.watchers = repo.watchers_count ∧
  stats.open_issues = repo.open_issues_count ∧
  stats.size_kb = repo.size ∧ stats.language = repo.language ∧
  stats.created_at = isoOrEmpty repo.created_at ∧
  stats.updated_at = isoOrEmpty repo.updated_at ∧
  stats.pushed_at = isoOrEmpty repo.pushed_at ∧
  stats.default_branch = repo.default_branch ∧
  stats.archived = repo.archived ∧ stats.disabled = repo.disabled ∧
  stats.is_private = repo.is_private ∧ stats.fork = repo.fork ∧
  stats.has_issues = repo.has_issues ∧
  stats.has_projects = repo.has_projects ∧
  stats.has_wiki = repo.has_wiki ∧ stats.has_pages = repo.has_pages ∧
  stats.license = repo.license ∧ stats.html_url = repo.html_url

/-- C7: a failing per-language sub-call yields an empty languages map, a
failing contributor-count sub-call yields a zero count, each fallback is
independent of the other sub-call's outcome, the whole call still
succeeds, and every primary repository field is returned unchanged
whatever the two auxiliary outcomes. -/
theorem getRepoStats_best_effort_fallbacks (repo : RawRepo)
    (eL eC : String) (langs : List (String × Nat)) (c : Nat)
    (lres : Except String (List (String × Nat))) (cres : Except String Nat)
    (repository o n : String)
    (h : parse_repository repository = .ok (o, n)) :
    (getRepoStats (.ok repo) (.error eL) cres repository).isOk = true ∧
    (getRepoStats (.ok repo) lres (.error eC) repository).isOk = true ∧
    (getRepoStats (.ok repo) (.error eL) (.ok c) repository).map
      (fun stats => (stats.languages, stats.contributors_count)) =
      .ok ([], c) ∧
    (getRepoStats (.ok repo) (.ok langs) (.error eC) repository).map
      (fun stats => (stats.languages, stats.contributors_count)) =
      .ok (langs, 0) ∧
    (getRepoStats (.ok repo) (.error eL) (.error eC) repository).map
      (fun stats => (stats.languages, stats.contributors_count)) =
      .ok ([], 0) ∧
    (∀ stats, getRepoStats (.ok repo) lres cres repository = .ok stats →
      primaryFieldsMatch stats repo) := by
  refine ⟨?_, ?_, ?_, ?_, ?_, ?_⟩
  · rw [getRepoStats_ok repo (.error eL) cres repository o n h]
    rfl
  · rw [getRepoStats_ok repo lres (.error eC) repository o n h]
    rfl
  · rw [getRepoStats_ok repo (.error eL) (.ok c) repository o n h]
    rfl
  · rw [getRepoStats_ok repo (.ok langs) (.error eC) repository o n h]
    rfl
  · rw [getRepoStats_ok repo (.error eL) (.error eC) repository o n h]
    rfl
  · intro stats heq
    rw [getRepoStats_ok repo lres cres repository o n h] at heq
    cases heq
    simp [primaryFieldsMatch]

/-- C7, witness: concrete failing and succeeding auxiliary calls, and the
primary `full_name` field surviving the double failure. -/
theorem getRepoStats_best_effort_witness :
    (getRepoStats (.ok sampleRepo) (.error "boom") (.ok 3) "octo/hello").map
      (fun stats => (stats.languages, stats.contributors_count)) =
      .ok ([], 3) ∧
    (getRepoStats (.ok sampleRepo) (.ok [("Python", 12)]) (.error "nope")
      "octo/hello").map
      (fun stats => (stats.languages, stats.contributors_count)) =
      .ok ([("Python", 12)], 0) ∧
    (getRepoStats (.ok sampleRepo) (.error "boom") (.error "nope")
      "octo/hello").isOk = true ∧
    (getRepoStats (.ok sampleRepo) (.error "boom") (.error "nope")
      "octo/hello").map (fun stats => stats.full_name) =
      .ok "octo/hello" := by
  have h := getRepoStats_best_effort_fallbacks sampleRepo "boom"
    "nope" [("Python", 12)] 3 (.error "boom") (.error "nope") "octo/hello"
    "octo" "hello" rfl
  have hE := getRepoStats_ok sampleRepo (.error "boom") (.error "nope")
    "octo/hello" "octo" "hello" rfl
  have hp := h.2.2.2.2.2 _ hE
  refine ⟨h.2.2.1, h.2.2.2.1, h.1, ?_⟩
  rw [hE]
  exact congrArg Except.ok (hp.2.1.trans rfl)

/-- C9: for every page size of zero or less, each of the six list
fetchers (commits, pull requests, issues, comments, releases, workflow
runs) returns the empty list — the limit check precedes any appending, so
no record is normalized or returned, and neither the default of 30 nor a
clamp to 1 is applied. -/
theorem nonpositive_page_size_returns_empty (commits : List RawCommit)
    (pulls : List RawPullRequest) (issues : List RawIssue)
    (comments : List RawComment) (releases : List RawRelease)
    (runs : List RawWorkflowRun) (repo : RawRepo) (issue : RawIssue)
    (lookupWorkflow : Int → Option String)
    (repository o n : String) (issue_number : Int) (per_page : Int)
    (h : parse_repository repository = .ok (o, n))
    (hpr : issue.pull_request = false) (hpp : per_page ≤ 0) :
    fetchNewCommits (.ok commits) repository per_page = .ok [] ∧
    fetchNewPRs (.ok pulls) repository per_page = .ok [] ∧
    fetchNewIssues (.ok issues) repository per_page = .ok [] ∧
    fetchIssueComments (.ok repo) (.ok issue) comments repository
      issue_number per_page = .ok [] ∧
    fetchReleases (.ok releases) repository per_page = .ok [] ∧
    fetchWorkflowRuns (.ok runs) lookupWorkflow repository per_page =
      .ok [] := by
  have h0 : (min per_page 100).toNat = 0 := by omega
  refine ⟨?_, ?_, ?_, ?_, ?_, ?_⟩
  · rw [fetchNewCommits_ok commits repository o n per_page h, h0]
    rfl
  · rw [fetchNewPRs_ok pulls repository o n per_page h, h0]
    rfl
  · rw [fetchNewIssues_ok issues repository o n per_page h, h0]
    rfl
  · rw [fetchIssueComments_ok repo issue comments repository issue_number
      o n per_page h hpr, h0]
    rfl
  · rw [fetchReleases_ok releases repository o n per_page h, h0]
    rfl
  · rw [fetchWorkflowRuns_ok runs lookupWorkflow repository o n per_page
      h, h0]
    rfl

/-- C9, witness: page sizes `0` and `-5` on non-empty upstream data all
return the empty list. -/
theorem nonpositive_page_size_returns_empty_witness :
    fetchNewCommits (.ok [sampleCommit]) "octo/hello" 0 = .ok [] ∧
    fetchNewPRs (.ok [samplePull]) "octo/hello" 0 = .ok [] ∧
    fetchNewIssues (.ok [sampleIssue]) "octo/hello" 0 = .ok [] ∧
    fetchIssueComments (.ok sampleRepo) (.ok sampleIssue) [sampleComment]
      "octo/hello" 7 0 = .ok [] ∧
    fetchReleases (.ok [sampleRelease]) "octo/hello" 0 = .ok [] ∧
    fetchWorkflowRuns (.ok [sampleRun]) (fun _ => none) "octo/hello" 0 =
      .ok [] ∧
    fetchNewCommits (.ok [sampleCommit]) "octo/hello" (-5) = .ok [] := by
  have h1 := nonpositive_page_size_returns_empty [sampleCommit]
    [samplePull] [sampleIssue] [sampleComment] [sampleRelease] [sampleRun]
    sampleRepo sampleIssue (fun _ => none) "octo/hello" "octo" "hello" 7 0
    rfl rfl (by norm_num)
  have h2 := nonpositive_page_size_returns_empty [sampleCommit]
    [samplePull] [sampleIssue] [sampleComment] [sampleRelease] [sampleRun]
    sampleRepo sampleIssue (fun _ => none) "octo/hello" "octo" "hello" 7
    (-5) rfl rfl (by norm_num)
  exact ⟨h1.1, h1.2.1, h1.2.2.1, h1.2.2.2.1, h1.2.2.2.2.1, h1.2.2.2.2.2,
    h2.1⟩

/-- C8: a release body longer than 500 characters is returned as its
first 500 characters followed by the ellipsis marker `"..."`; a body of
500 characters or fewer (or an absent body) is returned unchanged, and
`fetchReleases` returns exactly the normalized releases up to the
effective page size. -/
theorem release_body_truncation (release : RawRelease)
    (releases : List RawRelease) (repository o n : String)
    (per_page : Int)
    (h : parse_repository repository = .ok (o, n)) :
    (∀ b, release.body = some b → 500 < b.length →
      (normalizeRelease release).body = some (pySlice b 500 ++ "...")) ∧
    (∀ b, release.body = some b → b.length ≤ 500 →
      (normalizeRelease release).body = some b) ∧
    (release.body = none → (normalizeRelease release).body = none) ∧
    fetchReleases (.ok releases) repository per_page =
      .ok ((releases.take (min per_page 100).toNat).map
        normalizeRelease) := by
  refine ⟨?_, ?_, ?_, fetchReleases_ok releases repository o n per_page h⟩
  · intro b hb hlen
    simp only [normalizeRelease, hb]
    rw [if_pos hlen]
  · intro b hb hlen
    simp only [normalizeRelease, hb]
    rw [if_neg (by omega)]
  · intro hb
    simp [normalizeRelease, hb]

/-- C8, witness: a 600-character body is truncated to its first 500
characters plus `"..."`; an 11-character body and an absent body are
unchanged. -/
theorem release_body_truncation_witness :
    (normalizeRelease sampleLongRelease).body =
      some (pySlice longBody 500 ++ "...") ∧
    (normalizeRelease sampleShortRelease).body = some "short notes" ∧
    (normalizeRelease sampleRelease).body = none := by
  refine ⟨?_, ?_, ?_⟩
  · exact (release_body_truncation sampleLongRelease [] "octo/hello"
      "octo" "hello" 1 rfl).1 longBody rfl (by decide)
  · exact (release_body_truncation sampleShortRelease [] "octo/hello"
      "octo" "hello" 1 rfl).2.1 "short notes" rfl (by decide)
  · exact (release_body_truncation sampleRelease [] "octo/hello" "octo"
      "hello" 1 rfl).2.2.1 rfl

/-- C2, witness: the characterization at a concrete well-formed
identifier. -/
theorem parse_repository_characterization_witness :
    (parse_repository "octo/hello" = .ok ("octo", "hello") ↔
      "octo/hello".data = "octo".data ++ '/' :: "hello".data ∧
      '/' ∉ "octo".data ∧ '/' ∉ "hello".data) ∧
    ((parse_repository "octo/hello").isOk = true ↔
      "octo/hello".data.count '/' = 1) :=
  parse_repository_characterization "octo/hello" "octo" "hello"
